import Mathlib

/-
Verification of the overlay-scheduling and timeline-composition logic of
`video_editor.py` (class `BiblicalVideoEditor` and the `main` pipeline).

Times and durations are modelled as rationals (the Python floats only ever
undergo `+`, `-`, `*`, `/` on small values here).  Clip values built by the
script through moviepy are modelled by the inductive `Clip`, with the
standard moviepy duration semantics the script relies on:
`CompositeVideoClip([base, txt])` has duration `max (base.duration)
(txt.start + txt.duration)` (the maximum of the clip end times), and
`concatenate_videoclips` sums durations; `fadein`/`fadeout`,
`set_position`, fonts and colours do not affect timing and are omitted.
-/

/-- A text overlay whose timing has been fully resolved: `startTime` is the
second at which it appears and `duration` how long it stays, as computed by
`add_text_overlay` (video_editor.py lines 84-103). -/
structure ResolvedOverlay where
  startTime : ℚ
  duration : ℚ
deriving DecidableEq

/-- Shallow embedding of the moviepy clip values the script builds:
`media` is the loaded `VideoFileClip`, `text` a `TextClip` with
`set_duration` applied (the intro/outro banners), `composite` is
`CompositeVideoClip([base, overlay])` from `add_text_overlay` line 110,
and `concat` is `concatenate_videoclips` from `add_intro_text` line 155 /
`add_outro_text` line 200. -/
inductive Clip where
  | media (duration : ℚ)
  | text (duration : ℚ)
  | composite (base : Clip) (ov : ResolvedOverlay)
  | concat (a : Clip) (b : Clip)
deriving DecidableEq

/-- Duration of a clip under moviepy semantics: a composite ends at the
latest end time of its clips, a concatenation at the sum of durations. -/
def Clip.duration : Clip → ℚ
  | .media d => d
  | .text d => d
  | .composite base ov => max base.duration (ov.startTime + ov.duration)
  | .concat a b => a.duration + b.duration

/-- A segment of the flattened timeline: the base media or an intro/outro
banner (a `TextClip` spliced in by `concatenate_videoclips`). -/
inductive Segment where
  | media (length : ℚ)
  | banner (length : ℚ)
deriving DecidableEq

/-- The length a segment carries. -/
def segLength : Segment → ℚ
  | .media d => d
  | .banner d => d

/-- Flattened segment sequence of a clip, in playback order: concatenation
appends, compositing an overlay leaves the segmentation unchanged. -/
def Clip.segs : Clip → List Segment
  | .media d => [.media d]
  | .text d => [.banner d]
  | .composite base _ => base.segs
  | .concat a b => a.segs ++ b.segs

/-- Timing resolution of `add_text_overlay` (video_editor.py lines 84-86):
a missing duration defaults to the remaining video time
`video_clip.duration - start_time`; an explicit duration is kept as is. -/
def resolveTiming (videoDuration : ℚ) (start_time : ℚ) (duration : Option ℚ) :
    ResolvedOverlay :=
  { startTime := start_time, duration := duration.getD (videoDuration - start_time) }

/-- The single error the editor methods can raise about state: the
`ValueError("Video not loaded...")` guard at the top of each method. -/
inductive EditorError where
  | videoNotLoaded
deriving DecidableEq

/-- State of a `BiblicalVideoEditor` instance: `video_clip` mirrors the
`self.video_clip` attribute (`none` before `load_video`), and
`resourceClosed` records whether `cleanup` has called `close()` on the
clip (the Python object keeps its reference after closing). -/
structure Editor where
  video_clip : Option Clip
  resourceClosed : Bool
deriving DecidableEq

/-- `BiblicalVideoEditor.add_text_overlay` (lines 54-112): fails only when
no video is loaded; otherwise resolves timing and composites the text clip
onto the current clip.  No timing validation is performed. -/
def Editor.add_text_overlay (e : Editor) (start_time : ℚ) (duration : Option ℚ) :
    Except EditorError Editor :=
  match e.video_clip with
  | none => .error .videoNotLoaded
  | some c =>
      .ok { e with video_clip := some (.composite c (resolveTiming c.duration start_time duration)) }

/-- `BiblicalVideoEditor.add_intro_text` (lines 114-157): fails only when no
video is loaded; otherwise prepends a banner of the given duration by
concatenation.  There is no duplicate-intro check. -/
def Editor.add_intro_text (e : Editor) (duration : ℚ) : Except EditorError Editor :=
  match e.video_clip with
  | none => .error .videoNotLoaded
  | some c => .ok { e with video_clip := some (.concat (.text duration) c) }

/-- `BiblicalVideoEditor.add_outro_text` (lines 159-202): fails only when no
video is loaded; otherwise appends a banner of the given duration by
concatenation.  There is no duplicate-outro check. -/
def Editor.add_outro_text (e : Editor) (duration : ℚ) : Except EditorError Editor :=
  match e.video_clip with
  | none => .error .videoNotLoaded
  | some c => .ok { e with video_clip := some (.concat c (.text duration)) }

/-- `BiblicalVideoEditor.save_video` (lines 204-233): fails only when no
video is loaded; writing the file leaves the editor state unchanged (no
sealing, no state transition). -/
def Editor.save_video (e : Editor) : Except EditorError Editor :=
  match e.video_clip with
  | none => .error .videoNotLoaded
  | some _ => .ok e

/-- `BiblicalVideoEditor.cleanup` (lines 235-239): closes the clip when one
is loaded but leaves `self.video_clip` set (it is never reset to `None`). -/
def Editor.cleanup (e : Editor) : Editor :=
  match e.video_clip with
  | none => e
  | some _ => { e with resourceClosed := true }

/-- Whether an editor call succeeded (did not raise). -/
def exceptOk : Except EditorError Editor → Bool
  | .ok _ => true
  | .error _ => false

/-- The quote-file placement loop of `main` (video_editor.py lines 373-387):
`interval = video_duration / (len(quotes) + 1)` and quote `idx` is placed at
`start_time = interval * (idx + 1)` with the hard-coded `duration=5.0`. -/
def distribute_quotes (video_duration : ℚ) (quotes : List String) :
    List ResolvedOverlay :=
  let interval := video_duration / (quotes.length + 1)
  (List.range quotes.length).map fun (idx : ℕ) =>
    { startTime := interval * ((idx : ℚ) + 1), duration := 5 }

/-- The `main` pipeline when both `--intro` and `--quote-file` are given
(lines 344-346 and 368-387): the intro is concatenated first, then
`video_duration` is read from the current clip — which now includes the
intro — and the quotes are distributed over it. -/
def intro_then_quotes (l : ℚ) (d : ℚ) (quotes : List String) :
    List ResolvedOverlay :=
  distribute_quotes (Clip.concat (.text d) (.media l)).duration quotes

/-- One splicer call of the editor: adding an intro or an outro banner. -/
inductive SpliceCall where
  | intro (d : ℚ)
  | outro (d : ℚ)
deriving DecidableEq

/-- The duration argument of a splicer call. -/
def SpliceCall.dur : SpliceCall → ℚ
  | .intro d => d
  | .outro d => d

/-- Effect of one splicer call on the clip, as performed by
`add_intro_text` / `add_outro_text` on a loaded editor. -/
def applySplice (c : Clip) : SpliceCall → Clip
  | .intro d => .concat (.text d) c
  | .outro d => .concat c (.text d)

/-- Run a sequence of splicer calls left to right on a loaded clip. -/
def runSplices (c : Clip) : List SpliceCall → Clip
  | [] => c
  | call :: rest => runSplices (applySplice c call) rest

/-- The intro durations of a call sequence, in call order. -/
def introDurs : List SpliceCall → List ℚ
  | [] => []
  | .intro d :: rest => d :: introDurs rest
  | .outro _ :: rest => introDurs rest

/-- The outro durations of a call sequence, in call order. -/
def outroDurs : List SpliceCall → List ℚ
  | [] => []
  | .intro _ :: rest => outroDurs rest
  | .outro d :: rest => d :: outroDurs rest

/-- Decides the spec's segment-order shape `[intro?, base, outro?]`: exactly
one base media segment, at most one banner before it and at most one after. -/
def wellOrdered : List Segment → Bool
  | [.media _] => true
  | [.banner _, .media _] => true
  | [.media _, .banner _] => true
  | [.banner _, .media _, .banner _] => true
  | _ => false

/-- Placement of the quote-file loop, read off at index i: the overlay for
quote i starts at `video_duration / (N + 1) * (i + 1)` and lasts 5 seconds. -/
theorem distribute_quotes_getElem (L : ℚ) (quotes : List String) (i : ℕ)
    (hi : i < quotes.length) :
    (distribute_quotes L quotes)[i]? =
      some { startTime := L / (quotes.length + 1) * (i + 1), duration := 5 } := by
  unfold distribute_quotes
  rw [List.getElem?_map, List.getElem?_range hi]
  rfl

/-- Claim C1: with a quote file of N captions over a video of length L > 0,
caption i (0-indexed) is placed at startTime = L / (N + 1) * (i + 1) with the
fixed duration 5; for L = 100 and three captions the start times are
25, 50, 75, each with duration 5. -/
theorem claim1_even_spacing (L : ℚ) (hL : 0 < L) (quotes : List String) (i : ℕ)
    (hi : i < quotes.length) :
    (distribute_quotes L quotes)[i]? =
      some { startTime := L / (quotes.length + 1) * (i + 1), duration := 5 } ∧
    (distribute_quotes 100 ["a", "b", "c"])[0]? = some { startTime := 25, duration := 5 } ∧
    (distribute_quotes 100 ["a", "b", "c"])[1]? = some { startTime := 50, duration := 5 } ∧
    (distribute_quotes 100 ["a", "b", "c"])[2]? = some { startTime := 75, duration := 5 } := by
  refine ⟨distribute_quotes_getElem L quotes i hi, ?_, ?_, ?_⟩
  · have h := distribute_quotes_getElem 100 ["a", "b", "c"] 0 (by norm_num)
    norm_num at h
    exact h
  · have h := distribute_quotes_getElem 100 ["a", "b", "c"] 1 (by norm_num)
    norm_num at h
    exact h
  · have h := distribute_quotes_getElem 100 ["a", "b", "c"] 2 (by norm_num)
    norm_num at h
    exact h

/-- Witness for claim C1 at L = 100, three captions, i = 1. -/
theorem claim1_witness :
    (distribute_quotes 100 ["a", "b", "c"])[1]? =
      some { startTime := 100 / ((3 : ℚ) + 1) * (1 + 1), duration := 5 } := by
  have h := (claim1_even_spacing 100 (by norm_num) ["a", "b", "c"] 1 (by norm_num)).1
  simpa using h

/-- Claim C7: a single caption with neither start time nor duration resolves
to startTime = 0 and duration = L; in particular to (0, 30) when L = 30. -/
theorem claim7_whole_video (L : ℚ) (b : Bool) :
    Editor.add_text_overlay { video_clip := some (.media L), resourceClosed := b } 0 none =
      .ok { video_clip := some (.composite (.media L) { startTime := 0, duration := L }),
            resourceClosed := b } ∧
    Editor.add_text_overlay { video_clip := some (.media 30), resourceClosed := false } 0 none =
      .ok { video_clip := some (.composite (.media 30) { startTime := 0, duration := 30 }),
            resourceClosed := false } := by
  constructor
  · simp [Editor.add_text_overlay, resolveTiming, Clip.duration]
  · simp [Editor.add_text_overlay, resolveTiming, Clip.duration]

/-- Counterexample to claim C3: a caption at startTime = 35 on a video of
length 30 does not fail; `add_text_overlay` succeeds and resolves the
duration to 30 - 35 = -5. -/
theorem claim3_counterexample :
    Editor.add_text_overlay { video_clip := some (.media 30), resourceClosed := false } 35 none =
      .ok { video_clip := some (.composite (.media 30) { startTime := 35, duration := -5 }),
            resourceClosed := false } := by
  norm_num [Editor.add_text_overlay, resolveTiming, Clip.duration]

/-- Amended claim C3: with an explicit start time and no duration the resolved
duration is always `video duration - startTime`, even when startTime exceeds
the video length (the duration is then negative); no InvalidTiming check
exists and the call always succeeds on a loaded editor. -/
theorem claim3_amended (c : Clip) (s : ℚ) (b : Bool) :
    Editor.add_text_overlay { video_clip := some c, resourceClosed := b } s none =
      .ok { video_clip :=
              some (.composite c { startTime := s, duration := c.duration - s }),
            resourceClosed := b } := by
  simp [Editor.add_text_overlay, resolveTiming]

/-- Counterexample to claim C4: compositing the overlay (start 25, duration
10) onto a clip of length 30 yields a composite of length 35: the overlay is
not clipped and the timeline is silently extended. -/
theorem claim4_counterexample :
    (Clip.composite (.media 30) { startTime := 25, duration := 10 }).duration = 35 ∧
    (Clip.media 30).duration = 30 ∧ (35 : ℚ) ≠ 30 := by
  refine ⟨?_, rfl, by norm_num⟩
  show max (30 : ℚ) (25 + 10) = 35
  rw [max_eq_right (by norm_num : (30 : ℚ) ≤ 25 + 10)]
  norm_num

/-- Amended claim C4: composition never clips or rejects: the composite's
length is the maximum of the old length and the overlay end, so the timeline
length is unchanged when startTime + duration ≤ length and is silently
extended to startTime + duration otherwise. -/
theorem claim4_amended (c : Clip) (ov : ResolvedOverlay) :
    (ov.startTime + ov.duration ≤ c.duration →
      (Clip.composite c ov).duration = c.duration) ∧
    (c.duration ≤ ov.startTime + ov.duration →
      (Clip.composite c ov).duration = ov.startTime + ov.duration) := by
  constructor
  · intro h
    simp [Clip.duration, max_eq_left h]
  · intro h
    simp [Clip.duration, max_eq_right h]

/-- Witness for amended claim C4: an overlay ending at 15 on a clip of
length 30 leaves the composite length at 30. -/
theorem claim4_witness :
    (Clip.composite (.media 30) { startTime := 5, duration := 10 }).duration =
      (Clip.media 30).duration :=
  (claim4_amended (.media 30) { startTime := 5, duration := 10 }).1
    (by norm_num [Clip.duration])

/-- Counterexample to claim C5: a second `add_intro_text` call on an editor
that already has an intro succeeds (no DuplicateSegment error) and prepends a
second intro banner, giving segments [banner, banner, media]. -/
theorem claim5_counterexample :
    Editor.add_intro_text { video_clip := some (.media 30), resourceClosed := false } 5 =
      .ok { video_clip := some (.concat (.text 5) (.media 30)), resourceClosed := false } ∧
    Editor.add_intro_text
        { video_clip := some (.concat (.text 5) (.media 30)), resourceClosed := false } 5 =
      .ok { video_clip := some (.concat (.text 5) (.concat (.text 5) (.media 30))),
            resourceClosed := false } ∧
    Clip.segs (.concat (.text 5) (.concat (.text 5) (.media 30))) =
      [.banner 5, .banner 5, .media 30] := by
  refine ⟨rfl, rfl, rfl⟩

/-- Amended claim C5: there is no duplicate-intro guard: on a loaded editor a
second `add_intro_text` call also succeeds and prepends a further intro
banner, so the segments gain a second intro in front of the first. -/
theorem claim5_amended (c : Clip) (b : Bool) (d1 d2 : ℚ) :
    (Editor.add_intro_text { video_clip := some c, resourceClosed := b } d1).bind
        (fun e2 => e2.add_intro_text d2) =
      .ok { video_clip := some (.concat (.text d2) (.concat (.text d1) c)),
            resourceClosed := b } ∧
    Clip.segs (.concat (.text d2) (.concat (.text d1) c)) =
      .banner d2 :: .banner d1 :: c.segs := by
  constructor
  · rfl
  · simp [Clip.segs]

/-- Counterexample to claim C6: after `save_video` (which leaves the editor
unchanged) a further `add_text_overlay` succeeds, and it also succeeds after
`cleanup` (which closes the resource but keeps `video_clip` set): no call
fails with an InvalidState error. -/
theorem claim6_counterexample :
    Editor.save_video { video_clip := some (.media 30), resourceClosed := false } =
      .ok { video_clip := some (.media 30), resourceClosed := false } ∧
    Editor.add_text_overlay { video_clip := some (.media 30), resourceClosed := false }
        0 (some 5) =
      .ok { video_clip := some (.composite (.media 30) { startTime := 0, duration := 5 }),
            resourceClosed := false } ∧
    Editor.add_text_overlay
        (Editor.cleanup { video_clip := some (.media 30), resourceClosed := false })
        0 (some 5) =
      .ok { video_clip := some (.composite (.media 30) { startTime := 0, duration := 5 }),
            resourceClosed := true } := by
  refine ⟨rfl, rfl, rfl⟩

/-- Amended claim C6: the editor has no Sealed or Released state: on a loaded
editor `save_video` returns the state unchanged and `add_text_overlay` still
succeeds afterwards; `cleanup` closes the resource but leaves `video_clip`
set, so calls after it also succeed; the only state failure is the
video-not-loaded error when `video_clip` is `none`. -/
theorem claim6_amended (e e0 : Editor) (h : e.video_clip.isSome = true)
    (h0 : e0.video_clip = none) (s : ℚ) (d : Option ℚ) :
    e.save_video = .ok e ∧
    (e.cleanup).video_clip = e.video_clip ∧
    exceptOk (e.add_text_overlay s d) = true ∧
    exceptOk ((e.cleanup).add_text_overlay s d) = true ∧
    e0.add_text_overlay s d = .error .videoNotLoaded := by
  obtain ⟨vc, rc⟩ := e
  obtain ⟨vc0, rc0⟩ := e0
  cases vc with
  | none => simp at h
  | some c =>
      cases vc0 with
      | none => exact ⟨rfl, rfl, rfl, rfl, rfl⟩
      | some c0 => simp at h0

/-- Witness for amended claim C6 on a loaded editor over a 30-second video
and an unloaded editor. -/
theorem claim6_witness :
    Editor.save_video { video_clip := some (.media 30), resourceClosed := false } =
      .ok { video_clip := some (.media 30), resourceClosed := false } ∧
    (Editor.cleanup { video_clip := some (.media 30), resourceClosed := false }).video_clip =
      ({ video_clip := some (.media 30), resourceClosed := false } : Editor).video_clip ∧
    exceptOk (Editor.add_text_overlay { video_clip := some (.media 30), resourceClosed := false }
        0 (some 5)) = true ∧
    exceptOk (Editor.add_text_overlay
        (Editor.cleanup { video_clip := some (.media 30), resourceClosed := false })
        0 (some 5)) = true ∧
    Editor.add_text_overlay { video_clip := none, resourceClosed := false } 0 (some 5) =
      .error .videoNotLoaded :=
  claim6_amended { video_clip := some (.media 30), resourceClosed := false }
    { video_clip := none, resourceClosed := false } rfl rfl 0 (some 5)

/-- Claim C9: quote placement is deterministic: equal lengths and equal quote
lists give equal overlay lists, and the placement in fact depends only on the
number of quotes, not on their text. -/
theorem claim9_deterministic (L L2 : ℚ) (qs qs2 qs3 : List String)
    (hL : L = L2) (hq : qs = qs2) (hlen : qs.length = qs3.length) :
    distribute_quotes L qs = distribute_quotes L2 qs2 ∧
    distribute_quotes L qs = distribute_quotes L qs3 := by
  subst hL
  subst hq
  exact ⟨rfl, by simp [distribute_quotes, hlen]⟩

/-- Witness for claim C9 at L = 100 with one-element quote lists. -/
theorem claim9_witness :
    distribute_quotes 100 ["a"] = distribute_quotes 100 ["a"] ∧
    distribute_quotes 100 ["a"] = distribute_quotes 100 ["b"] :=
  claim9_deterministic 100 100 ["a"] ["a"] ["b"] rfl rfl rfl

/-- Counterexample to claim C2: distributing 3 captions over a 10-second
video places caption 2 at startTime 15/2 with duration 5, so
startTime + duration = 25/2 > 10; the duration is not clamped down to
10 - 15/2 = 5/2 — no clamping exists. -/
theorem claim2_counterexample :
    (distribute_quotes 10 ["a", "b", "c"])[2]? =
      some { startTime := 15 / 2, duration := 5 } ∧
    ¬ ((15 / 2 : ℚ) + 5 ≤ 10) ∧ (5 : ℚ) ≠ 10 - 15 / 2 := by
  refine ⟨?_, by norm_num, by norm_num⟩
  have h := distribute_quotes_getElem 10 ["a", "b", "c"] 2 (by norm_num)
  norm_num at h
  exact h

/-- Amended claim C2: every overlay from the even distribution has
startTime ≥ 0 (for a nonnegative video length) and the fixed duration 5 —
no clamping is performed — so startTime + duration ≤ L is only guaranteed
when 5 * (N + 1) ≤ L, and fails otherwise. -/
theorem claim2_amended (L : ℚ) (hL : 0 ≤ L) (quotes : List String) (i : ℕ)
    (hi : i < quotes.length) (ov : ResolvedOverlay)
    (hov : (distribute_quotes L quotes)[i]? = some ov) :
    0 ≤ ov.startTime ∧ ov.duration = 5 ∧
    (5 * ((quotes.length : ℚ) + 1) ≤ L → ov.startTime + ov.duration ≤ L) := by
  rw [distribute_quotes_getElem L quotes i hi, Option.some.injEq] at hov
  subst hov
  have hn : (0 : ℚ) < (quotes.length : ℚ) + 1 := by positivity
  refine ⟨mul_nonneg (div_nonneg hL hn.le) (by positivity), rfl, ?_⟩
  intro h5
  have hint : 5 ≤ L / ((quotes.length : ℚ) + 1) := by
    rw [le_div_iff₀ hn]
    linarith
  have hi1 : (i : ℚ) + 1 ≤ (quotes.length : ℚ) := by
    have h2 : i + 1 ≤ quotes.length := hi
    exact_mod_cast h2
  have hmul : L / ((quotes.length : ℚ) + 1) * ((i : ℚ) + 1) ≤
      L / ((quotes.length : ℚ) + 1) * (quotes.length : ℚ) :=
    mul_le_mul_of_nonneg_left hi1 (div_nonneg hL hn.le)
  have hid : L / ((quotes.length : ℚ) + 1) * (quotes.length : ℚ) +
      L / ((quotes.length : ℚ) + 1) = L := by
    have h3 : L / ((quotes.length : ℚ) + 1) * ((quotes.length : ℚ) + 1) = L :=
      div_mul_cancel₀ L (ne_of_gt hn)
    calc L / ((quotes.length : ℚ) + 1) * (quotes.length : ℚ) +
          L / ((quotes.length : ℚ) + 1)
        = L / ((quotes.length : ℚ) + 1) * ((quotes.length : ℚ) + 1) := by ring
      _ = L := h3
  show L / ((quotes.length : ℚ) + 1) * ((i : ℚ) + 1) + 5 ≤ L
  linarith

/-- Witness for amended claim C2 at L = 100, three captions, caption 0. -/
theorem claim2_witness :
    0 ≤ (ResolvedOverlay.mk 25 5).startTime ∧ (ResolvedOverlay.mk 25 5).duration = 5 ∧
    (5 * ((["a", "b", "c"].length : ℚ) + 1) ≤ 100 →
      (ResolvedOverlay.mk 25 5).startTime + (ResolvedOverlay.mk 25 5).duration ≤ 100) :=
  claim2_amended 100 (by norm_num) ["a", "b", "c"] 0 (by norm_num) ⟨25, 5⟩
    (by have h := distribute_quotes_getElem 100 ["a", "b", "c"] 0 (by norm_num)
        norm_num at h
        exact h)

/-- Claim C10: when an intro of duration d is added before a quote file is
processed, the even-spacing interval is computed from the full current
timeline duration L + d, so caption i is anchored at
(L + d) / (N + 1) * (i + 1) measured from the start of the intro. -/
theorem claim10_interval_includes_intro (l d : ℚ) (hd : 0 < d)
    (quotes : List String) (i : ℕ) (hi : i < quotes.length) :
    (intro_then_quotes l d quotes)[i]? =
      some { startTime := (l + d) / (quotes.length + 1) * (i + 1), duration := 5 } := by
  unfold intro_then_quotes
  rw [distribute_quotes_getElem _ quotes i hi]
  have harith : (Clip.concat (.text d) (.media l)).duration = l + d := by
    simp [Clip.duration]
    ring
  rw [harith]

/-- Witness for claim C10: base 30s plus intro 5s puts the single caption at
(30 + 5) / 2 = 35/2. -/
theorem claim10_witness :
    (intro_then_quotes 30 5 ["a"])[0]? = some { startTime := 35 / 2, duration := 5 } := by
  have h := claim10_interval_includes_intro 30 5 (by norm_num) ["a"] 0 (by norm_num)
  norm_num at h
  exact h

/-- Structure of any splicer-call sequence: the segments are the intros in
reverse call order, then the starting clip's segments, then the outros in
call order; the duration grows by the sum of the spliced durations. -/
theorem runSplices_structure (calls : List SpliceCall) (c : Clip) :
    (runSplices c calls).segs =
      (introDurs calls).reverse.map Segment.banner ++ c.segs ++
        (outroDurs calls).map Segment.banner ∧
    (runSplices c calls).duration = c.duration + (calls.map SpliceCall.dur).sum := by
  induction calls generalizing c with
  | nil => simp [runSplices, introDurs, outroDurs]
  | cons head tail ih =>
    cases head with
    | intro d =>
      obtain ⟨h1, h2⟩ := ih (Clip.concat (.text d) c)
      constructor
      · rw [show runSplices c (SpliceCall.intro d :: tail) =
            runSplices (Clip.concat (.text d) c) tail from rfl, h1]
        simp [Clip.segs, introDurs, outroDurs, List.append_assoc]
      · rw [show runSplices c (SpliceCall.intro d :: tail) =
            runSplices (Clip.concat (.text d) c) tail from rfl, h2]
        simp [Clip.duration, SpliceCall.dur]
        ring
    | outro d =>
      obtain ⟨h1, h2⟩ := ih (Clip.concat c (.text d))
      constructor
      · rw [show runSplices c (SpliceCall.outro d :: tail) =
            runSplices (Clip.concat c (.text d)) tail from rfl, h1]
        simp [Clip.segs, introDurs, outroDurs, List.append_assoc]
      · rw [show runSplices c (SpliceCall.outro d :: tail) =
            runSplices (Clip.concat c (.text d)) tail from rfl, h2]
        simp [Clip.duration, SpliceCall.dur]
        ring

/-- The spliced durations split into the intro and outro durations. -/
theorem introDurs_sum_add_outroDurs_sum (calls : List SpliceCall) :
    (introDurs calls).sum + (outroDurs calls).sum = (calls.map SpliceCall.dur).sum := by
  induction calls with
  | nil => simp [introDurs, outroDurs]
  | cons head tail ih =>
    cases head with
    | intro d =>
      simp only [introDurs, outroDurs, List.map_cons, List.sum_cons, SpliceCall.dur]
      linarith
    | outro d =>
      simp only [introDurs, outroDurs, List.map_cons, List.sum_cons, SpliceCall.dur]
      linarith

/-- Counterexample to claim C8: after the splicer sequence intro, intro the
segments are [banner, banner, media], which is not of the shape
[intro?, base, outro?]. -/
theorem claim8_counterexample :
    wellOrdered (runSplices (Clip.media 30) [SpliceCall.intro 5, SpliceCall.intro 5]).segs =
      false := rfl

/-- Amended claim C8: after any splicer sequence the segments are all the
intros (in reverse call order), then the base, then all the outros (in call
order) — the shape [intro?, base, outro?] is only guaranteed when each of
intro and outro is added at most once, since there is no duplicate guard;
the total duration is always the sum of the segment lengths, and the
scenario intro 5s + base 30s + outro 5s gives length 40 in the shape
[intro, base, outro]. -/
theorem claim8_amended (l : ℚ) (calls : List SpliceCall) :
    (runSplices (Clip.media l) calls).segs =
      (introDurs calls).reverse.map Segment.banner ++ [Segment.media l] ++
        (outroDurs calls).map Segment.banner ∧
    (runSplices (Clip.media l) calls).duration = l + (calls.map SpliceCall.dur).sum ∧
    (runSplices (Clip.media l) calls).duration =
      ((runSplices (Clip.media l) calls).segs.map segLength).sum ∧
    (runSplices (Clip.media 30) [SpliceCall.intro 5, SpliceCall.outro 5]).duration = 40 ∧
    wellOrdered (runSplices (Clip.media 30) [SpliceCall.intro 5, SpliceCall.outro 5]).segs =
      true := by
  obtain ⟨h1, h2⟩ := runSplices_structure calls (Clip.media l)
  refine ⟨by simpa [Clip.segs] using h1, by simpa [Clip.duration] using h2, ?_, ?_, rfl⟩
  · rw [h1, h2]
    have hs := introDurs_sum_add_outroDurs_sum calls
    have hb : ∀ ds : List ℚ, (ds.map Segment.banner).map segLength = ds := by
      intro ds
      induction ds with
      | nil => simp
      | cons x xs ihx => simp [segLength, ihx]
    rw [List.map_append, List.map_append, List.sum_append, List.sum_append, hb, hb,
      List.sum_reverse]
    simp only [Clip.segs, Clip.duration, List.map_cons, List.map_nil, segLength,
      List.sum_cons, List.sum_nil]
    linarith
  · show (Clip.concat (Clip.concat (.text 5) (.media 30)) (.text 5)).duration = 40
    norm_num [Clip.duration]
